import Mathlib

set_option maxRecDepth 8192

/-!
Shallow embedding of the agentic orchestration subsystem of the
monitor-srag-ai repository (a SRAG public-health surveillance monitor).

The embedding follows the Python source:
  * src/src/intelligence/state.py  — conversation state (message log);
  * src/src/intelligence/graph.py  — router, graph wiring, report node;
  * src/src/intelligence/tools.py  — ToolFactory (SQL tool, hybrid RAG tool);
  * src/app.py                     — entry point (reference date, main flow).

External effects (LLM calls, the SQLite driver, the Tavily search API, the
text splitter, FAISS and BM25 retrievers) are modelled as explicit oracle
parameters: the embedding captures exactly the control flow and data flow
that the repository's own code performs around those calls.  Python
exception paths are modelled with `Except`; Python string truthiness
(`if s:`) is modelled as `s ≠ ""`; `None` is modelled with `Option`.
-/

/-- A requested capability call carried by an assistant message
(langchain `tool_calls`); `id` is the correlation identifier the
framework threads from the request to the tool result message. -/
structure ToolCall where
  id : String
  name : String
  args : String
  deriving DecidableEq, Repr

/-- Message roles appearing in the conversation: `HumanMessage`,
`AIMessage`, `ToolMessage` and `SystemMessage` of langchain. -/
inductive Role
  | human
  | assistant
  | tool
  | system
  deriving DecidableEq, Repr

/-- A conversation message (src/src/intelligence/state.py: the `messages`
list of `AgentState`).  Only assistant messages carry a non-empty
`tool_calls` list; tool-result messages carry the `tool_call_id` of the
call they answer. -/
structure Message where
  role : Role
  content : String
  tool_calls : List ToolCall := []
  tool_call_id : String := ""
  deriving DecidableEq, Repr

/-- Embeds `router` (src/src/intelligence/graph.py lines 68-78): it reads
the last message of the state (`state["messages"][-1]`) and returns
`"tools_execution"` when that message's `tool_calls` list is non-empty
(Python list truthiness) and `"final_report"` otherwise.  On an empty
conversation the Python expression `messages[-1]` raises `IndexError`;
that path is modelled as `none`. -/
def router (messages : List Message) : Option String :=
  match messages.getLast? with
  | none => none
  | some last_message =>
    if last_message.tool_calls ≠ [] then some "tools_execution"
    else some "final_report"

/-- A registered capability: name together with its implementation, a text
function whose failure is modelled with `Except` (spec §4.4: a failing
invocation must become a textual error description, never an exception). -/
def Capabilities : Type := List (String × (String → Except String String))

/-- Modelled from the spec: the Capability-Execution Node.  The repository
instantiates `ToolNode(available_tools)` from the langgraph library
(src/src/intelligence/graph.py line 85); the implementation of `ToolNode`
is not part of this repository, so this definition follows spec §4.4: for
each requested capability call on the latest assistant message, dispatch
by name, invoke with the supplied arguments, and produce one
capability-result message carrying the capability's text output,
correlated to the originating call; if the named capability is unknown or
its invocation fails, produce a capability-result message containing a
textual error description instead of propagating the failure. -/
def toolNode (caps : Capabilities) (messages : List Message) : List Message :=
  match messages.getLast? with
  | none => []
  | some m =>
    m.tool_calls.map (fun tc =>
      match caps.find? (fun c => c.1 = tc.name) with
      | none =>
        { role := Role.tool,
          content := "Error: unknown capability " ++ tc.name,
          tool_call_id := tc.id }
      | some c =>
        match c.2 tc.args with
        | Except.ok out =>
          { role := Role.tool, content := out, tool_call_id := tc.id }
        | Except.error e =>
          { role := Role.tool, content := "Error: " ++ e,
            tool_call_id := tc.id })

/-- `SYSTEM_PROMPT_REPORT` (src/config/prompts.py): the fixed system
instruction prepended by the report-generation node. -/
def SYSTEM_PROMPT_REPORT : String :=
  "\nAtue como Especialista em Vigilância em Saúde e Epidemiologia Digital. \nSua responsabilidade é consolidar dados técnicos e contexto qualitativo para elaborar um relatório de monitoramento oficial.\n\nInstruções de Execução:\n1. Utilize os dados quantitativos extraídos via SQL.\n2. Integre o contexto qualitativo obtido através da pesquisa de notícias.\n3. Considere os gráficos de tendência já gerados pelo sistema.\n4. Mantenha um tom estritamente técnico, objetivo e orientado a dados, similar a boletins epidemiológicos oficiais.\n\nEstrutura Obrigatória do Relatório:\nO relatório final deve seguir exatamente o modelo abaixo, em formato Markdown:\n\n## Relatório de Monitoramento de SRAG (Síndrome Respiratória Aguda Grave)\n\n### Resumo Executivo\n[Forneça uma síntese situacional baseada nos dados analisados e principais alertas]\n\n### Situação Atual e Tendência\n[Indique se há tendência de alta, queda ou estabilidade, justificando com os números]\n\n### Métricas Principais\n- Taxa de aumento de casos: [Inserir valor]\n- Taxa de mortalidade: [Inserir valor]\n- Taxa de ocupação de UTI: [Inserir valor]\n- Taxa de vacinação: [Inserir valor]\n\n> Nota: Caso algum dado não esteja disponível, informe explicitamente na análise.\n\n### Contexto Recente (Notícias)\n[Resuma os eventos relevantes encontrados nas notícias e seu impacto no cenário de saúde]\n\n### Interpretação Integrada\n[Correlacione as métricas quantitativas com as notícias e fatores sazonais]\n\n### Incertezas e Limitações\n[Destaque limitações como subnotificação, atraso no processamento de dados ou inconsistências regionais]\n\n### Conclusão e Recomendações\n[Sugira ações de vigilância e mitigação baseadas nas evidências apresentadas]\n"

/-- Embeds `agent_reasoning_node` (src/src/intelligence/graph.py lines
39-46): the model (`llm_with_tools.invoke`, here the oracle `reason`) is
applied to the message history and its single response is the state
delta appended by the `add_messages` reducer. -/
def agent_reasoning_node (reason : List Message → Message)
    (messages : List Message) : List Message :=
  [reason messages]

/-- Embeds `report_generation_node` (src/src/intelligence/graph.py lines
48-66): a `SystemMessage` with `SYSTEM_PROMPT_REPORT` is prepended to the
history and the tool-free model (`llm.invoke`, here the oracle
`reportModel`) produces the single appended response. -/
def report_generation_node (reportModel : List Message → Message)
    (messages : List Message) : List Message :=
  [reportModel ({ role := Role.system, content := SYSTEM_PROMPT_REPORT } :: messages)]

/-- Nodes of the compiled `StateGraph` (src/src/intelligence/graph.py
lines 80-108): `START`, `"agent_brain"`, `"tools_execution"`,
`"final_report"` and `END`. -/
inductive GraphNode
  | start
  | agent_brain
  | tools_execution
  | final_report
  | finished
  deriving DecidableEq, Repr

/-- The external calls `get_agent_graph` wires into the graph: the
tool-bound reasoning model, the tool-free report model, and the two
registered capabilities handed to the tool node. -/
structure GraphOracles where
  reason : List Message → Message
  reportModel : List Message → Message
  caps : Capabilities

/-- One transition of the compiled state graph (src/src/intelligence/
graph.py lines 80-108): `START → agent_brain`; from `agent_brain` the
conditional edge applies `router` to the updated state and maps
`"tools_execution"`/`"final_report"` to the nodes of the same name;
`tools_execution → agent_brain` unconditionally (line 102); and
`final_report → END` (line 105). -/
def graphStep (o : GraphOracles) :
    GraphNode × List Message → GraphNode × List Message
  | (GraphNode.start, messages) => (GraphNode.agent_brain, messages)
  | (GraphNode.agent_brain, messages) =>
    let messages2 := messages ++ agent_reasoning_node o.reason messages
    if router messages2 = some "tools_execution" then
      (GraphNode.tools_execution, messages2)
    else
      (GraphNode.final_report, messages2)
  | (GraphNode.tools_execution, messages) =>
    (GraphNode.agent_brain, messages ++ toolNode o.caps messages)
  | (GraphNode.final_report, messages) =>
    (GraphNode.finished, messages ++ report_generation_node o.reportModel messages)
  | (GraphNode.finished, messages) => (GraphNode.finished, messages)

/-- Iterated graph transitions from a starting configuration.  The
repository's own wiring contains no step counter and no iteration cap
(src/src/intelligence/graph.py lines 80-108), so the embedding simply
iterates `graphStep`. -/
def graphSteps (o : GraphOracles) (s : GraphNode × List Message) :
    Nat → GraphNode × List Message
  | 0 => s
  | n + 1 => graphStep o (graphSteps o s n)

/-- Decides whether `pat` occurs as a contiguous run inside `l`
(helper used to state that a prompt string mentions a given phrase). -/
def isSubList (pat : List Char) : List Char → Bool
  | [] => pat.isEmpty
  | c :: rest => pat.isPrefixOf (c :: rest) || isSubList pat rest

/-- String containment helper: `containsSubstr s pat = true` iff `pat`
occurs contiguously inside `s`. -/
def containsSubstr (s pat : String) : Bool :=
  isSubList pat.data s.data

namespace ToolFactory

/-- Embeds `ToolFactory._get_db_max_date` (src/src/intelligence/tools.py
lines 25-41): `SELECT MAX(data_sintomas) FROM casos_srag` is issued; when
the query raises (`except` path, modelled as `Except.error`), or returns
no row / a falsy value (`if result and result[0]` — Python truthiness,
so `None` and `""` both fail the test), the literal `"data desconhecida"`
is returned; otherwise the fetched date string is returned. -/
def _get_db_max_date (queryResult : Except Unit (Option String)) : String :=
  match queryResult with
  | Except.error _ => "data desconhecida"
  | Except.ok none => "data desconhecida"
  | Except.ok (some s) => if s ≠ "" then s else "data desconhecida"

/-- A raw search result from the external search provider
(`tavily.invoke`): a dict with `content` (possibly absent or empty,
hence `Option`), `url` and `title`. -/
structure RawDoc where
  content : Option String
  url : String
  title : String
  deriving DecidableEq, Repr

/-- A langchain `Document` as built in `_hybrid_search`: `page_content`
plus the `source` and `title` metadata. -/
structure Document where
  page_content : String
  source : String
  title : String
  deriving DecidableEq, Repr

/-- Python truthiness of `d.get('content')`: false for a missing key
(`none`) and for the empty string. -/
def contentTruthy : Option String → Bool
  | none => false
  | some s => s ≠ ""

/-- Embeds the document-preparation comprehension of `_hybrid_search`
(src/src/intelligence/tools.py lines 53-56): documents with falsy
content are discarded; the rest become `Document` values. -/
def mkDocuments (raw_docs : List RawDoc) : List Document :=
  (raw_docs.filter (fun d => contentTruthy d.content)).map
    (fun d => { page_content := d.content.getD "", source := d.url, title := d.title })

/-- One Python `dict` assignment `m[k] = v` on an insertion-ordered
association list: an existing key keeps its position and gets the new
value; a new key is appended at the end. -/
def dictInsert (m : List (String × Document)) (k : String) (v : Document) :
    List (String × Document) :=
  if m.any (fun p => p.1 = k) then
    m.map (fun p => if p.1 = k then (k, v) else p)
  else m ++ [(k, v)]

/-- The Python dict comprehension over document contents,
`{doc.page_content: doc for doc in all_docs}` (src/src/intelligence/
tools.py line 89), evaluated left to right with insertion-order
semantics. -/
def contentDict (docs : List Document) : List (String × Document) :=
  docs.foldl (fun m d => dictInsert m d.page_content d) []

/-- Embeds the fusion-and-deduplication step of `_hybrid_search`
(src/src/intelligence/tools.py lines 86-89): `all_docs` is the
concatenation `semantic_docs + lexical_docs` and `unique_docs` is
`{doc.page_content: doc for doc in all_docs}.values()`. -/
def fuseDocs (semantic_docs lexical_docs : List Document) : List Document :=
  (contentDict (semantic_docs ++ lexical_docs)).map Prod.snd

/-- Embeds the context formatting of `_hybrid_search`
(src/src/intelligence/tools.py lines 91-96). -/
def formatContext (docs : List Document) : String :=
  String.intercalate "\n\n---\n\n"
    (docs.map (fun d => "Fonte: " ++ d.title ++ "\nConteúdo: " ++ d.page_content))

/-- Embeds `ToolFactory._hybrid_search` (src/src/intelligence/tools.py
lines 43-96).  The external steps are oracles: `split` is the
`RecursiveCharacterTextSplitter`, `semanticSearch` the FAISS retriever
pipeline of the `try` block at lines 68-75 (its `except` path, modelled
as `Except.error`, contributes `semantic_docs = []`), and
`lexicalSearch` the BM25 pipeline at lines 77-84 with the same fail-soft
handling.  The three guard clauses return the source's literal sentinel
strings. -/
def _hybrid_search (raw_docs : List RawDoc)
    (split : List Document → List Document)
    (semanticSearch : List Document → Except Unit (List Document))
    (lexicalSearch : List Document → Except Unit (List Document)) : String :=
  if raw_docs = [] then "Nenhuma notícia encontrada."
  else
    let documents := mkDocuments raw_docs
    if documents = [] then "Conteúdo das notícias vazio ou ilegível."
    else
      let chunks := split documents
      if chunks = [] then "Não foi possível segmentar o texto das notícias."
      else
        let semantic_docs :=
          match semanticSearch chunks with
          | Except.ok ds => ds
          | Except.error _ => []
        let lexical_docs :=
          match lexicalSearch chunks with
          | Except.ok ds => ds
          | Except.error _ => []
        formatContext (fuseDocs semantic_docs lexical_docs)

/-- Embeds `search_process` inside `create_news_rag_tool`
(src/src/intelligence/tools.py lines 151-158): a raised `tavily.invoke`
(modelled as `Except.error`) is caught and converted into the fixed
sentinel `"Erro ao buscar contexto externo."`; otherwise the raw results
are handed to `_hybrid_search`. -/
def search_process (tavilyResult : Except Unit (List RawDoc))
    (split : List Document → List Document)
    (semanticSearch : List Document → Except Unit (List Document))
    (lexicalSearch : List Document → Except Unit (List Document)) : String :=
  match tavilyResult with
  | Except.error _ => "Erro ao buscar contexto externo."
  | Except.ok raw_results => _hybrid_search raw_results split semanticSearch lexicalSearch

/-- Embeds the `system_prompt` f-string of `create_sql_tool`
(src/src/intelligence/tools.py lines 113-123), with `max_date`
interpolated at its two occurrences.  The concatenation below reproduces
the f-string text byte for byte; it is split at the phrases the theorems
talk about. -/
def sqlSystemPrompt (max_date : String) : String :=
  "\n        Você é um especialista em SQL para dados de saúde pública (SRAG).\n        \n        GUARDRAILS DE SEGURANÇA E CONTEXTO:\n        1. A data de referência (\"hoje\") para todos os cálculos é estritamente **"
  ++ max_date
  ++ "**. \n           - NUNCA use `now()` ou `CURRENT_DATE` do SQL, pois o banco é estático.\n           - Se o usuário pedir \"últimos 30 dias\", "
  ++ "calcule 30 dias antes de " ++ max_date
  ++ ".\n        2. A tabela principal é `casos_srag`.\n        3. "
  ++ "PERMISSÃO SOMENTE LEITURA. Comandos de modificação (INSERT, DELETE, DROP) são PROIBIDOS."
  ++ "\n        4. Retorne apenas o código SQL ou o resultado da query.\n        "

/-- The database URI built by `create_sql_tool`
(src/src/intelligence/tools.py line 106): `f"sqlite:///{settings.DB_PATH}"`.
No read-only mode parameter is requested (contrast `get_latest_db_date`
in src/app.py line 27, which opens `f"file:{settings.DB_PATH}?mode=ro"`). -/
def sqlDbUri (db_path : String) : String := "sqlite:///" ++ db_path

/-- The keyword arguments `create_sql_tool` passes to langchain's
`create_sql_agent` (src/src/intelligence/tools.py lines 125-132):
`verbose=False`, `agent_type="openai-tools"`, the system prompt as the
agent's prompt preamble (source keyword `prefix`), and
`handle_parsing_errors=True`. -/
structure SqlAgentSetup where
  verbose : Bool
  agent_type : String
  promptText : String
  handle_parsing_errors : Bool
  deriving DecidableEq, Repr

/-- The agent setup built by `create_sql_tool` for a given DB-query
outcome: the temporal anchor is `_get_db_max_date` of that outcome,
interpolated into `sqlSystemPrompt`. -/
def sqlAgentSetup (dbQuery : Except Unit (Option String)) : SqlAgentSetup :=
  { verbose := false,
    agent_type := "openai-tools",
    promptText := sqlSystemPrompt ( _get_db_max_date dbQuery),
    handle_parsing_errors := true }

/-- A langchain `Tool` as returned by the factory methods: name,
description and the text-to-text function. -/
structure LcTool where
  name : String
  description : String
  run : String → String

/-- Embeds `ToolFactory.create_sql_tool` (src/src/intelligence/tools.py
lines 98-138).  When the database file is missing the construction
raises `FileNotFoundError` (modelled as `Except.error` with the source's
message); otherwise the tool is built: its `func` is
`lambda q: agent_executor.invoke({"input": q})['output']`, i.e. the
question is handed verbatim to the agent executor (oracle
`agent_executor`, standing for langchain's SQL agent together with the
model) configured with `sqlAgentSetup dbQuery` — no further processing,
inspection or filtering happens in the repository's code. -/
def create_sql_tool (dbExists : Bool) (db_path : String)
    (dbQuery : Except Unit (Option String))
    (agent_executor : SqlAgentSetup → String → String) : Except String LcTool :=
  if !dbExists then
    Except.error ("Banco de dados não encontrado em: " ++ db_path)
  else
    Except.ok
      { name := "consultar_banco_sql",
        description := "Use para obter métricas exatas, contagens e estatísticas do banco de dados.",
        run := fun q => agent_executor (sqlAgentSetup dbQuery) q }

end ToolFactory

namespace App

/-- Embeds `get_latest_db_date` (src/app.py lines 18-39): the maximum
`data_sintomas` is read from the database opened read-only; any raised
error (`except` path) and a falsy result (`max_date if max_date else`)
fall back to the fixed string `"2024-01-01"`. -/
def get_latest_db_date (queryResult : Except Unit (Option String)) : String :=
  match queryResult with
  | Except.error _ => "2024-01-01"
  | Except.ok none => "2024-01-01"
  | Except.ok (some s) => if s ≠ "" then s else "2024-01-01"

/-- Embeds the `prompt_dinamico` f-string of `main` (src/app.py lines
75-84), the Human task prompt that seeds the conversation;
`data_referencia` is interpolated at its occurrences and
`data_referencia[:4]` is `String.take 4`.  The concatenation reproduces
the f-string byte for byte, split at the phrases the theorems talk
about. -/
def prompt_dinamico (data_referencia : String) : String :=
  "\n                DATA DE REFERÊNCIA DO SISTEMA (\"HOJE\"): " ++ data_referencia
  ++ "\n                \n                Instruções Obrigatórias:\n                1. "
  ++ "Considere que hoje é estritamente " ++ data_referencia
  ++ ".\n                2. Use a ferramenta SQL para calcular métricas dos \"últimos 30 dias\" \n                   "
  ++ "contados a partir de " ++ data_referencia ++ " para trás"
  ++ ".\n                3. Busque notícias contextualizadas com o ano de "
  ++ data_referencia.take 4
  ++ ".\n                4. Gere o relatório preenchendo as métricas com os valores exatos encontrados.\n                "

/-- The observable outcome of one button-triggered run of `main`
(src/app.py lines 41-114): whether the agent graph was ever invoked,
the error banner shown (if any), the reference date computed for the
run, and the final report text (if one was produced). -/
structure RunOutcome where
  agentInvoked : Bool
  displayedError : Option String
  data_referencia : Option String
  final_response : Option String
  deriving Repr

/-- Embeds the control flow of `main` (src/app.py lines 41-96).  Step 1
runs the ETL and computes `data_referencia` via `get_latest_db_date`
(which never raises); a raised ETL error aborts the run.  Step 2 runs
the plotter; a raised error aborts the run.  Step 3 builds the agent
graph — whose construction starts with `create_sql_tool`
(src/src/intelligence/graph.py line 23) and therefore raises iff the
database file is missing — and, on success, invokes the agent (oracle
`agentRun`, the compiled graph plus models) on `prompt_dinamico`; any
exception of step 3 is caught and shown as `"Falha no Agente AI: "`. -/
def mainRun (etlResult : Except String Unit) (dbExists : Bool) (db_path : String)
    (dbQuery : Except Unit (Option String)) (plotResult : Except String Unit)
    (agent_executor : ToolFactory.SqlAgentSetup → String → String)
    (agentRun : String → Except String String) : RunOutcome :=
  match etlResult with
  | Except.error e =>
    { agentInvoked := false, displayedError := some ("Erro no ETL: " ++ e),
      data_referencia := none, final_response := none }
  | Except.ok _ =>
    let data_referencia := get_latest_db_date dbQuery
    match plotResult with
    | Except.error e =>
      { agentInvoked := false, displayedError := some ("Erro nos gráficos: " ++ e),
        data_referencia := some data_referencia, final_response := none }
    | Except.ok _ =>
      match ToolFactory.create_sql_tool dbExists db_path dbQuery agent_executor with
      | Except.error e =>
        { agentInvoked := false, displayedError := some ("Falha no Agente AI: " ++ e),
          data_referencia := some data_referencia, final_response := none }
      | Except.ok _ =>
        match agentRun (prompt_dinamico data_referencia) with
        | Except.error e =>
          { agentInvoked := true, displayedError := some ("Falha no Agente AI: " ++ e),
            data_referencia := some data_referencia, final_response := none }
        | Except.ok resp =>
          { agentInvoked := true, displayedError := none,
            data_referencia := some data_referencia, final_response := some resp }

end App

/-- The Human task message of a demonstration run (concrete input used by
closed theorems). -/
def demoHumanMessage : Message :=
  { role := Role.human, content := App.prompt_dinamico "2024-06-30" }

/-- A model oracle that requests a capability on every reasoning step
(the misbehaving model of spec §8, scenario C), with the repository's
two registered capability names available. -/
def alwaysToolOracle : GraphOracles :=
  { reason := fun _ =>
      { role := Role.assistant, content := "",
        tool_calls := [{ id := "call_1", name := "consultar_banco_sql",
                         args := "casos nos últimos 30 dias" }] },
    reportModel := fun _ =>
      { role := Role.assistant, content := "relatório final" },
    caps := [("consultar_banco_sql", fun _ => Except.ok "resultado da consulta"),
             ("pesquisar_noticias_contexto", fun _ => Except.ok "notícias")] }

/-- An assistant message requesting a single call to a capability name
that is not registered (concrete input for closed theorems). -/
def demoUnknownCallMessage : Message :=
  { role := Role.assistant, content := "",
    tool_calls := [{ id := "call_9", name := "ferramenta_inexistente", args := "x" }] }

/-- A concrete chunk used by closed fusion theorems. -/
def demoChunk : ToolFactory.Document :=
  { page_content := "Casos de SRAG em alta na região sul.", source := "u1",
    title := "Notícia 1" }

/-- A second concrete chunk with different content. -/
def demoChunk2 : ToolFactory.Document :=
  { page_content := "Vacinação contra gripe avança.", source := "u2",
    title := "Notícia 2" }

/-!
Theorems.  Each claim of the specification is settled by one theorem
below; shared helper lemmas come first.
-/

/-- Unfolding of the router on a conversation with an appended last
message: only that message's `tool_calls` decides the outcome. -/
theorem router_concat (ms : List Message) (m : Message) :
    router (ms ++ [m]) =
      if m.tool_calls ≠ [] then some "tools_execution" else some "final_report" := by
  simp [router, List.getLast?_concat]

/-- With a model that always requests a capability, one graph transition
from any node of the reasoning cycle stays in the reasoning cycle. -/
theorem graphStep_cycle (o : GraphOracles)
    (h : ∀ ms, (o.reason ms).tool_calls ≠ []) (s : GraphNode × List Message)
    (hs : s.1 = GraphNode.start ∨ s.1 = GraphNode.agent_brain ∨
      s.1 = GraphNode.tools_execution) :
    (graphStep o s).1 = GraphNode.agent_brain ∨
      (graphStep o s).1 = GraphNode.tools_execution := by
  obtain ⟨n, ms⟩ := s
  dsimp only at hs
  rcases hs with rfl | rfl | rfl
  · exact Or.inl rfl
  · right
    have hr : router (ms ++ agent_reasoning_node o.reason ms) = some "tools_execution" := by
      have he : ms ++ agent_reasoning_node o.reason ms = ms ++ [o.reason ms] := rfl
      rw [he, router_concat, if_pos (h ms)]
    simp [graphStep, hr]
  · exact Or.inl rfl

/-- C2 (amended): the repository's orchestration graph imposes no
iteration cap of its own — the `tools_execution → agent_brain` edge is
unconditional and no counter or abort exists in the wiring
(src/src/intelligence/graph.py lines 80-108).  Consequently, for every
model oracle that requests a capability on every reasoning step, the run
never reaches the report-synthesis node and never terminates inside the
repository's state machine (any bound on the cycle is the executing
framework's default recursion limit, which lies outside this code and
surfaces as a generic error, not as an "unable to converge" fault). -/
theorem loop_never_reaches_report_synthesis (o : GraphOracles) (ms0 : List Message)
    (h : ∀ ms, (o.reason ms).tool_calls ≠ []) (n : Nat) :
    (graphSteps o (GraphNode.start, ms0) n).1 ≠ GraphNode.final_report ∧
    (graphSteps o (GraphNode.start, ms0) n).1 ≠ GraphNode.finished := by
  have key : ∀ k, (graphSteps o (GraphNode.start, ms0) k).1 = GraphNode.start ∨
      (graphSteps o (GraphNode.start, ms0) k).1 = GraphNode.agent_brain ∨
      (graphSteps o (GraphNode.start, ms0) k).1 = GraphNode.tools_execution := by
    intro k
    induction k with
    | zero => exact Or.inl rfl
    | succ k ih =>
      exact Or.inr (graphStep_cycle o h (graphSteps o (GraphNode.start, ms0) k) ih)
  refine ⟨?_, ?_⟩ <;> rcases key n with hk | hk | hk <;> simp [hk]

/-- C2 witness: the amended loop theorem applied to the concrete
always-requesting model oracle after three transitions. -/
theorem loop_never_reaches_report_synthesis_witness :
    (graphSteps alwaysToolOracle (GraphNode.start, [demoHumanMessage]) 3).1
        ≠ GraphNode.final_report ∧
    (graphSteps alwaysToolOracle (GraphNode.start, [demoHumanMessage]) 3).1
        ≠ GraphNode.finished :=
  loop_never_reaches_report_synthesis alwaysToolOracle [demoHumanMessage]
    (fun _ => List.cons_ne_nil _ _) 3

/-- C2, counterexample to the claim as stated: with a model that
requests a capability on every reasoning step, the repository's graph is
still alternating inside the Reasoning↔CapabilityExecution cycle at
every one of the first 53 transitions (more than 26 full iterations,
beyond any fixed maximum of the kind the claim asserts): no run abort
occurs — no abort state even exists in the graph — no "unable to
converge" fault is surfaced (the string appears nowhere in the
repository), and the report-synthesis node is never entered. -/
theorem loop_no_abort_counterexample :
    ((List.range 53).all fun k =>
        decide ((graphSteps alwaysToolOracle (GraphNode.start, [demoHumanMessage]) k).1
            ≠ GraphNode.final_report)
        && decide ((graphSteps alwaysToolOracle (GraphNode.start, [demoHumanMessage]) k).1
            ≠ GraphNode.finished)) = true := by decide

/-- C4: the Router is a pure function of only the latest assistant
message (src/src/intelligence/graph.py lines 68-78): a non-empty
requested-capability-call list on the last message yields
`"tools_execution"`, an empty list yields `"final_report"`, and nothing
else — not the number of earlier messages, their contents, or the names
of the requested tools — affects the result. -/
theorem router_pure_function_of_last_message :
    (∀ (ms : List Message) (m : Message), m.tool_calls ≠ [] →
        router (ms ++ [m]) = some "tools_execution")
    ∧ (∀ (ms : List Message) (m : Message), m.tool_calls = [] →
        router (ms ++ [m]) = some "final_report")
    ∧ (∀ (ms ms' : List Message) (m : Message),
        router (ms ++ [m]) = router (ms' ++ [m])) := by
  refine ⟨?_, ?_, ?_⟩
  · intro ms m hm; rw [router_concat]; simp [hm]
  · intro ms m hm; rw [router_concat]; simp [hm]
  · intro ms ms' m; rw [router_concat, router_concat]

/-- C4 witness: the router theorem applied at concrete conversations of
different lengths. -/
theorem router_pure_function_of_last_message_witness :
    router ([] ++
        [({ role := Role.assistant, content := "",
            tool_calls := [{ id := "c1", name := "consultar_banco_sql", args := "q" }] }
          : Message)])
      = some "tools_execution"
    ∧ router ([({ role := Role.human, content := "pergunta" } : Message)] ++
        [({ role := Role.assistant, content := "pronto" } : Message)])
      = some "final_report" :=
  ⟨router_pure_function_of_last_message.1 [] _ (by decide),
   router_pure_function_of_last_message.2.1
     [({ role := Role.human, content := "pergunta" } : Message)] _ rfl⟩

/-- C5 (spec-modelled: the Capability-Execution Node is langgraph's
`ToolNode`, instantiated at src/src/intelligence/graph.py line 85 but
implemented outside this repository, so `toolNode` models it from spec
§4.4): for every requested capability call on the latest assistant
message — including calls naming an unknown capability and calls whose
invocation fails — the node produces exactly one capability-result
message per requested call, each with role `tool` and correlated to the
call it answers, carrying a textual error description when the name is
unknown; the node is a total function (nothing is raised past its
boundary), control returns unconditionally to the reasoning node with
the results appended, and with a single requested call the conversation
grows by exactly one message. -/
theorem tool_node_one_result_per_call (o : GraphOracles) (ms : List Message)
    (m : Message) (h : ms.getLast? = some m) :
    (toolNode o.caps ms).length = m.tool_calls.length
    ∧ List.Forall₂ (fun (tc : ToolCall) (r : Message) =>
        r.role = Role.tool ∧ r.tool_call_id = tc.id ∧
        (o.caps.find? (fun c => c.1 = tc.name) = none →
          r.content = "Error: unknown capability " ++ tc.name))
        m.tool_calls (toolNode o.caps ms)
    ∧ (graphStep o (GraphNode.tools_execution, ms))
        = (GraphNode.agent_brain, ms ++ toolNode o.caps ms)
    ∧ (m.tool_calls.length = 1 →
        (ms ++ toolNode o.caps ms).length = ms.length + 1) := by
  refine ⟨?_, ?_, rfl, ?_⟩
  · simp [toolNode, h]
  · simp only [toolNode, h]
    rw [List.forall₂_map_right_iff, List.forall₂_same]
    intro tc _
    cases hfind : o.caps.find? (fun c => c.1 = tc.name) with
    | none => simp [hfind]
    | some c =>
      cases hres : c.2 tc.args with
      | ok out => simp [hfind, hres]
      | error e => simp [hfind, hres]
  · intro h1
    simp [toolNode, h, h1]

/-- C5 witness: the capability-execution theorem applied to a concrete
conversation whose last assistant message requests one call to an
unregistered capability. -/
theorem tool_node_one_result_per_call_witness :
    (toolNode alwaysToolOracle.caps [demoUnknownCallMessage]).length
        = demoUnknownCallMessage.tool_calls.length
    ∧ ([demoUnknownCallMessage] ++ toolNode alwaysToolOracle.caps [demoUnknownCallMessage]).length
        = [demoUnknownCallMessage].length + 1 :=
  ⟨(tool_node_one_result_per_call alwaysToolOracle [demoUnknownCallMessage]
      demoUnknownCallMessage rfl).1,
   (tool_node_one_result_per_call alwaysToolOracle [demoUnknownCallMessage]
      demoUnknownCallMessage rfl).2.2.2 rfl⟩

/-- Keys of a Python dict after one assignment: an existing key leaves
the key list unchanged, a new key is appended. -/
theorem dictInsert_keys (m : List (String × ToolFactory.Document)) (k : String)
    (v : ToolFactory.Document) :
    (ToolFactory.dictInsert m k v).map Prod.fst =
      if k ∈ m.map Prod.fst then m.map Prod.fst else m.map Prod.fst ++ [k] := by
  unfold ToolFactory.dictInsert
  split
  next h =>
    have hk : k ∈ m.map Prod.fst := by
      rcases List.any_eq_true.mp h with ⟨p, hp, hpk⟩
      have hpk2 : p.1 = k := by simpa using hpk
      exact hpk2 ▸ List.mem_map_of_mem Prod.fst hp
    rw [if_pos hk, List.map_map]
    refine List.map_congr_left ?_
    intro p _
    by_cases hpk : p.1 = k
    · simp [Function.comp, hpk]
    · simp [Function.comp, hpk]
  next h =>
    have hk : k ∉ m.map Prod.fst := by
      intro hcon
      rcases List.mem_map.mp hcon with ⟨p, hp, hpk⟩
      exact h (List.any_eq_true.mpr ⟨p, hp, by simpa using hpk⟩)
    rw [if_neg hk, List.map_append]
    simp

/-- Membership in the key list after one dict assignment. -/
theorem mem_dictInsert_keys (m : List (String × ToolFactory.Document)) (k k' : String)
    (v : ToolFactory.Document) :
    k' ∈ (ToolFactory.dictInsert m k v).map Prod.fst ↔
      k' ∈ m.map Prod.fst ∨ k' = k := by
  rw [dictInsert_keys]
  by_cases hk : k ∈ m.map Prod.fst
  · rw [if_pos hk]
    constructor
    · exact Or.inl
    · rintro (h | rfl)
      · exact h
      · exact hk
  · rw [if_neg hk]
    simp

/-- One dict assignment preserves distinctness of the keys. -/
theorem dictInsert_keys_nodup (m : List (String × ToolFactory.Document)) (k : String)
    (v : ToolFactory.Document) (h : (m.map Prod.fst).Nodup) :
    ((ToolFactory.dictInsert m k v).map Prod.fst).Nodup := by
  rw [dictInsert_keys]
  by_cases hk : k ∈ m.map Prod.fst
  · rwa [if_pos hk]
  · rw [if_neg hk]
    refine List.Nodup.append h (List.nodup_singleton k) ?_
    intro a ha hsing
    rw [List.mem_singleton] at hsing
    exact hk (hsing ▸ ha)

/-- One dict assignment preserves the invariant that every stored value
has its own `page_content` as its key. -/
theorem dictInsert_snd_content (m : List (String × ToolFactory.Document)) (k : String)
    (v : ToolFactory.Document)
    (hm : ∀ p ∈ m, (Prod.snd p).page_content = p.1) (hv : v.page_content = k) :
    ∀ p ∈ ToolFactory.dictInsert m k v, (Prod.snd p).page_content = p.1 := by
  unfold ToolFactory.dictInsert
  split
  · intro p hp
    rcases List.mem_map.mp hp with ⟨q, hq, rfl⟩
    by_cases hqk : q.1 = k
    · simp [hqk, hv]
    · simpa [hqk] using hm q hq
  · intro p hp
    rcases List.mem_append.mp hp with h | h
    · exact hm p h
    · rw [List.mem_singleton] at h
      subst h
      simpa using hv

/-- Key membership of the content dict built by folding over documents,
generalized over the accumulator. -/
theorem contentDict_go_keys_mem (docs : List ToolFactory.Document) :
    ∀ (m : List (String × ToolFactory.Document)) (k : String),
      k ∈ ((docs.foldl (fun m d => ToolFactory.dictInsert m d.page_content d) m).map Prod.fst) ↔
        k ∈ m.map Prod.fst ∨ k ∈ docs.map ToolFactory.Document.page_content := by
  induction docs with
  | nil =>
    intro m k
    simp
  | cons d docs ih =>
    intro m k
    rw [List.foldl_cons, ih, mem_dictInsert_keys]
    simp only [List.map_cons, List.mem_cons]
    tauto

/-- The content dict built by folding over documents has distinct keys,
generalized over the accumulator. -/
theorem contentDict_go_keys_nodup (docs : List ToolFactory.Document) :
    ∀ m, (m.map Prod.fst).Nodup →
      ((docs.foldl (fun m d => ToolFactory.dictInsert m d.page_content d) m).map Prod.fst).Nodup := by
  induction docs with
  | nil =>
    intro m hm
    simpa using hm
  | cons d docs ih =>
    intro m hm
    rw [List.foldl_cons]
    exact ih _ (dictInsert_keys_nodup m _ d hm)

/-- Every value stored in the content dict has its own `page_content` as
its key, generalized over the accumulator. -/
theorem contentDict_go_snd (docs : List ToolFactory.Document) :
    ∀ m, (∀ p ∈ m, (Prod.snd p).page_content = p.1) →
      ∀ p ∈ docs.foldl (fun m d => ToolFactory.dictInsert m d.page_content d) m,
        (Prod.snd p).page_content = p.1 := by
  induction docs with
  | nil =>
    intro m hm
    simpa using hm
  | cons d docs ih =>
    intro m hm
    rw [List.foldl_cons]
    exact ih _ (dictInsert_snd_content m _ d hm rfl)

/-- The contents of the fused output are exactly the keys of the content
dict of the concatenated inputs. -/
theorem fuseDocs_contents_eq_keys (S L : List ToolFactory.Document) :
    (ToolFactory.fuseDocs S L).map ToolFactory.Document.page_content =
      (ToolFactory.contentDict (S ++ L)).map Prod.fst := by
  unfold ToolFactory.fuseDocs
  rw [List.map_map]
  refine List.map_congr_left ?_
  intro p hp
  exact contentDict_go_snd (S ++ L) [] (by simp) p hp

/-- A content occurs in the fused output iff it occurs in either ranked
input list. -/
theorem mem_fuseDocs_contents (S L : List ToolFactory.Document) (c : String) :
    c ∈ (ToolFactory.fuseDocs S L).map ToolFactory.Document.page_content ↔
      c ∈ (S ++ L).map ToolFactory.Document.page_content := by
  rw [fuseDocs_contents_eq_keys]
  unfold ToolFactory.contentDict
  simpa using contentDict_go_keys_mem (S ++ L) [] c

/-- The fused output carries pairwise distinct contents. -/
theorem fuseDocs_contents_nodup (S L : List ToolFactory.Document) :
    ((ToolFactory.fuseDocs S L).map ToolFactory.Document.page_content).Nodup := by
  rw [fuseDocs_contents_eq_keys]
  exact contentDict_go_keys_nodup (S ++ L) [] (by simp)

/-- C6: retrieval fusion deduplicates by exact chunk content
(src/src/intelligence/tools.py lines 86-89): for every pair of semantic
and lexical top-k result lists, a chunk content appearing in both lists
contributes exactly one entry to the fused output, and every distinct
chunk content present in either list appears exactly once in the fused
set. -/
theorem fusion_dedup_by_content (semantic_docs lexical_docs : List ToolFactory.Document) :
    (∀ c, c ∈ (ToolFactory.fuseDocs semantic_docs lexical_docs).map
          ToolFactory.Document.page_content
        ↔ c ∈ (semantic_docs ++ lexical_docs).map ToolFactory.Document.page_content)
    ∧ (∀ c, c ∈ (semantic_docs ++ lexical_docs).map ToolFactory.Document.page_content →
        ((ToolFactory.fuseDocs semantic_docs lexical_docs).map
          ToolFactory.Document.page_content).count c = 1) := by
  refine ⟨mem_fuseDocs_contents semantic_docs lexical_docs, ?_⟩
  intro c hc
  exact List.count_eq_one_of_mem
    (fuseDocs_contents_nodup semantic_docs lexical_docs)
    ((mem_fuseDocs_contents semantic_docs lexical_docs c).mpr hc)

/-- C6 witness: feeding the same chunk in both the semantic and the
lexical top-k yields exactly one copy of its content in the fused
output. -/
theorem fusion_dedup_by_content_witness :
    demoChunk.page_content ∈
        (([demoChunk] ++ [demoChunk, demoChunk2]).map ToolFactory.Document.page_content)
    ∧ ((ToolFactory.fuseDocs [demoChunk] [demoChunk, demoChunk2]).map
        ToolFactory.Document.page_content).count demoChunk.page_content = 1 :=
  ⟨by simp,
   (fusion_dedup_by_content [demoChunk] [demoChunk, demoChunk2]).2
     demoChunk.page_content (by simp)⟩

/-- C7: retrieval fusion is invariant under exchanging the order of its
two ranked input lists: since deduplication keys on exact chunk content
(src/src/intelligence/tools.py line 89), the deduplicated set of chunk
contents obtained by unioning semantic-before-lexical equals the one
obtained by unioning lexical-before-semantic. -/
theorem fusion_order_invariant (S L : List ToolFactory.Document) :
    ((ToolFactory.fuseDocs S L).map ToolFactory.Document.page_content).toFinset =
      ((ToolFactory.fuseDocs L S).map ToolFactory.Document.page_content).toFinset := by
  ext c
  simp only [List.mem_toFinset, mem_fuseDocs_contents, List.map_append, List.mem_append]
  tauto

/-- C8: the Retrieval Tool never raises past its boundary
(src/src/intelligence/tools.py lines 43-96 and 151-158): a failing
external search is caught and answered with the fixed sentinel
"Erro ao buscar contexto externo."; an empty result list yields the
fixed sentinel "Nenhuma notícia encontrada."; when every retrieved
document has empty/absent content the corresponding sentinel is
returned; when chunking produces no chunks the corresponding sentinel is
returned; and a failure confined to the semantic branch (or to the
lexical branch) contributes an empty list to fusion — the call's result
is identical to that branch returning no documents — instead of
aborting the whole call. -/
theorem retrieval_sentinels_and_fail_soft
    (split : List ToolFactory.Document → List ToolFactory.Document)
    (semanticSearch lexicalSearch :
      List ToolFactory.Document → Except Unit (List ToolFactory.Document)) :
    ToolFactory.search_process (Except.error ()) split semanticSearch lexicalSearch
        = "Erro ao buscar contexto externo."
    ∧ ToolFactory.search_process (Except.ok []) split semanticSearch lexicalSearch
        = "Nenhuma notícia encontrada."
    ∧ (∀ raw_docs : List ToolFactory.RawDoc, raw_docs ≠ [] →
        (∀ d ∈ raw_docs, ToolFactory.contentTruthy d.content = false) →
        ToolFactory.search_process (Except.ok raw_docs) split semanticSearch lexicalSearch
          = "Conteúdo das notícias vazio ou ilegível.")
    ∧ (∀ raw_docs : List ToolFactory.RawDoc,
        ToolFactory.mkDocuments raw_docs ≠ [] →
        split (ToolFactory.mkDocuments raw_docs) = [] →
        ToolFactory.search_process (Except.ok raw_docs) split semanticSearch lexicalSearch
          = "Não foi possível segmentar o texto das notícias.")
    ∧ (∀ raw_docs : List ToolFactory.RawDoc,
        ToolFactory._hybrid_search raw_docs split (fun _ => Except.error ()) lexicalSearch
          = ToolFactory._hybrid_search raw_docs split (fun _ => Except.ok []) lexicalSearch)
    ∧ (∀ raw_docs : List ToolFactory.RawDoc,
        ToolFactory._hybrid_search raw_docs split semanticSearch (fun _ => Except.error ())
          = ToolFactory._hybrid_search raw_docs split semanticSearch (fun _ => Except.ok [])) := by
  refine ⟨rfl, rfl, ?_, ?_, ?_, ?_⟩
  · intro raw_docs hne hall
    have hdocs : ToolFactory.mkDocuments raw_docs = [] := by
      have hf : raw_docs.filter (fun d => ToolFactory.contentTruthy d.content) = [] :=
        List.filter_eq_nil_iff.mpr (fun d hd => by simp [hall d hd])
      simp [ToolFactory.mkDocuments, hf]
    simp [ToolFactory.search_process, ToolFactory._hybrid_search, hne, hdocs]
  · intro raw_docs hdocs hchunks
    have hne : raw_docs ≠ [] := by
      intro h0
      apply hdocs
      subst h0
      rfl
    simp [ToolFactory.search_process, ToolFactory._hybrid_search, hne, hdocs, hchunks]
  · intro raw_docs
    rfl
  · intro raw_docs
    rfl

/-- C8 witness: the sentinel theorem applied to a concrete search result
whose single document has empty content, and to a concrete splitter that
produces no chunks. -/
theorem retrieval_sentinels_and_fail_soft_witness :
    ToolFactory.search_process
        (Except.ok [({ content := some "", url := "u", title := "t" } : ToolFactory.RawDoc)])
        (fun ds => ds) (fun _ => Except.ok []) (fun _ => Except.ok [])
      = "Conteúdo das notícias vazio ou ilegível."
    ∧ ToolFactory.search_process
        (Except.ok [({ content := some "notícia completa", url := "u", title := "t" }
          : ToolFactory.RawDoc)])
        (fun _ => []) (fun _ => Except.ok []) (fun _ => Except.ok [])
      = "Não foi possível segmentar o texto das notícias." :=
  ⟨(retrieval_sentinels_and_fail_soft (fun ds => ds)
      (fun _ => Except.ok []) (fun _ => Except.ok [])).2.2.1
      [({ content := some "", url := "u", title := "t" } : ToolFactory.RawDoc)]
      (by decide) (by decide),
   (retrieval_sentinels_and_fail_soft (fun _ => [])
      (fun _ => Except.ok []) (fun _ => Except.ok [])).2.2.2.1
      [({ content := some "notícia completa", url := "u", title := "t" } : ToolFactory.RawDoc)]
      (by decide) rfl⟩

/-- A list is a prefix of itself followed by anything. -/
theorem isPrefixOf_append_self (l t : List Char) : l.isPrefixOf (l ++ t) = true := by
  induction l with
  | nil => simp [List.isPrefixOf]
  | cons c l ih => simp [List.isPrefixOf, ih]

/-- A pattern that is a prefix occurs as a contiguous run. -/
theorem isSubList_of_isPrefixOf (pat l : List Char) (h : pat.isPrefixOf l = true) :
    isSubList pat l = true := by
  cases l with
  | nil =>
    cases pat with
    | nil => rfl
    | cons c p => simp [List.isPrefixOf] at h
  | cons c rest => simp [isSubList, h]

/-- Occurrence as a contiguous run is preserved by prepending. -/
theorem isSubList_append_left (l₁ l₂ pat : List Char) (h : isSubList pat l₂ = true) :
    isSubList pat (l₁ ++ l₂) = true := by
  induction l₁ with
  | nil => simpa using h
  | cons c l₁ ih => simp [isSubList, ih]

/-- Substring occurrence is preserved by prepending. -/
theorem containsSubstr_append_left (a s pat : String) (h : containsSubstr s pat = true) :
    containsSubstr (a ++ s) pat = true := by
  unfold containsSubstr at h ⊢
  rw [String.data_append]
  exact isSubList_append_left a.data s.data pat.data h

/-- A string occurs in itself followed by anything. -/
theorem containsSubstr_self_append (pat b : String) :
    containsSubstr (pat ++ b) pat = true := by
  unfold containsSubstr
  rw [String.data_append]
  exact isSubList_of_isPrefixOf _ _ (isPrefixOf_append_self pat.data b.data)

/-- Occurrence of a two-piece pattern at the front. -/
theorem containsSubstr_self_append2 (x y b : String) :
    containsSubstr (x ++ (y ++ b)) (x ++ y) = true := by
  have h : x ++ (y ++ b) = (x ++ y) ++ b := (String.append_assoc x y b).symm
  rw [h]
  exact containsSubstr_self_append (x ++ y) b

/-- Occurrence of a three-piece pattern at the front. -/
theorem containsSubstr_self_append3 (x y z b : String) :
    containsSubstr (x ++ (y ++ (z ++ b))) (x ++ (y ++ z)) = true := by
  have h : x ++ (y ++ (z ++ b)) = (x ++ (y ++ z)) ++ b := by
    rw [String.append_assoc, String.append_assoc]
  rw [h]
  exact containsSubstr_self_append _ _

/-- C3, counterexample to the claim as stated: nothing in the repository
rejects a mutating statement before execution.  The tool built by
`create_sql_tool` (src/src/intelligence/tools.py line 137) hands the
input text verbatim to the agent executor — the langchain SQL agent
together with the model, both outside the repository — over a
connection whose URI requests no read-only mode (line 106).  Observing
the executor as the identity, the mutating request
"DROP TABLE casos_srag" reaches the execution layer unchanged: no
rejection, transformation or refusal happens in the repository's code,
whose only read-only guard is prompt text. -/
theorem sql_tool_no_preexecution_rejection :
    (match ToolFactory.create_sql_tool true "data/srag_data.db"
        (Except.ok (some "2024-06-30")) (fun _ q => q) with
     | Except.ok t => t.run "DROP TABLE casos_srag"
     | Except.error e => e)
    = "DROP TABLE casos_srag" := rfl

/-- C3 (amended): the Structured-Query Tool's read-only guarantee is
instruction-level, not mechanical.  The agent setup built by
`create_sql_tool` carries `handle_parsing_errors = true` (malformed
model output is handled rather than crashing) and a system prompt
containing the literal read-only prohibition, so rejections of mutating
statements come from the instructed model and surface as the tool's
answer text; but the tool's function forwards each input question
verbatim to the agent executor — the repository interposes no statement
inspection or rejection between model output and execution — and the
database URI requests no read-only mode, so unchanged database contents
under adversarial model output are not mechanically guaranteed. -/
theorem sql_tool_guardrails_are_prompt_level
    (dbQuery : Except Unit (Option String))
    (agent_executor : ToolFactory.SqlAgentSetup → String → String)
    (db_path : String) :
    (ToolFactory.sqlAgentSetup dbQuery).handle_parsing_errors = true
    ∧ containsSubstr (ToolFactory.sqlAgentSetup dbQuery).promptText
        "PERMISSÃO SOMENTE LEITURA. Comandos de modificação (INSERT, DELETE, DROP) são PROIBIDOS."
        = true
    ∧ ToolFactory.create_sql_tool true db_path dbQuery agent_executor
        = Except.ok
            { name := "consultar_banco_sql",
              description := "Use para obter métricas exatas, contagens e estatísticas do banco de dados.",
              run := fun q => agent_executor (ToolFactory.sqlAgentSetup dbQuery) q }
    ∧ ToolFactory.sqlDbUri db_path = "sqlite:///" ++ db_path
    ∧ containsSubstr (ToolFactory.sqlDbUri "data/srag_data.db") "mode=ro" = false := by
  refine ⟨rfl, ?_, rfl, rfl, by decide⟩
  show containsSubstr (ToolFactory.sqlSystemPrompt (ToolFactory._get_db_max_date dbQuery)) _ = true
  unfold ToolFactory.sqlSystemPrompt
  simp only [String.append_assoc]
  apply containsSubstr_append_left
  apply containsSubstr_append_left
  apply containsSubstr_append_left
  apply containsSubstr_append_left
  apply containsSubstr_append_left
  apply containsSubstr_append_left
  exact containsSubstr_self_append _ _

/-- C9: if the analytic database is missing when the Structured-Query
Tool is constructed, construction fails fast with an error
(src/src/intelligence/tools.py lines 103-104).  Graph construction
starts with this tool (src/src/intelligence/graph.py line 23) and runs
before any agent invocation (src/app.py lines 73-87), so the entry
point's run aborts with the fault surfaced as a setup error: the agent
is never invoked, and no partial report is produced — the fault is not
converted into a recoverable runtime capability result. -/
theorem sql_tool_fails_fast_when_db_missing (db_path : String)
    (dbQuery : Except Unit (Option String))
    (agent_executor : ToolFactory.SqlAgentSetup → String → String)
    (agentRun : String → Except String String) :
    ToolFactory.create_sql_tool false db_path dbQuery agent_executor
        = Except.error ("Banco de dados não encontrado em: " ++ db_path)
    ∧ (App.mainRun (Except.ok ()) false db_path dbQuery (Except.ok ())
        agent_executor agentRun).agentInvoked = false
    ∧ (App.mainRun (Except.ok ()) false db_path dbQuery (Except.ok ())
        agent_executor agentRun).displayedError
        = some ("Falha no Agente AI: " ++ ("Banco de dados não encontrado em: " ++ db_path))
    ∧ (App.mainRun (Except.ok ()) false db_path dbQuery (Except.ok ())
        agent_executor agentRun).final_response = none :=
  ⟨rfl, rfl, rfl, rfl⟩

/-- C10: if the analytic database file exists but the
MAX(data_sintomas) query fails (unreadable file or missing table),
returns NULL (empty table) or returns an empty string, the run does not
abort: the entry point substitutes the fallback reference date
"2024-01-01" (src/app.py lines 35-39), the Structured-Query Tool's
temporal-anchor helper independently substitutes "data desconhecida"
(src/src/intelligence/tools.py lines 36-41), the two fallbacks are
mutually inconsistent strings, and orchestration proceeds to invoke the
agent with the degraded reference date and no error banner. -/
theorem degraded_anchor_run_proceeds :
    (App.get_latest_db_date (Except.error ()) = "2024-01-01"
      ∧ App.get_latest_db_date (Except.ok none) = "2024-01-01"
      ∧ App.get_latest_db_date (Except.ok (some "")) = "2024-01-01")
    ∧ (ToolFactory._get_db_max_date (Except.error ()) = "data desconhecida"
      ∧ ToolFactory._get_db_max_date (Except.ok none) = "data desconhecida"
      ∧ ToolFactory._get_db_max_date (Except.ok (some "")) = "data desconhecida")
    ∧ ("2024-01-01" : String) ≠ "data desconhecida"
    ∧ (App.mainRun (Except.ok ()) true "data/srag_data.db" (Except.error ())
        (Except.ok ()) (fun _ q => q)
        (fun _ => Except.ok "relatório final")).agentInvoked = true
    ∧ (App.mainRun (Except.ok ()) true "data/srag_data.db" (Except.error ())
        (Except.ok ()) (fun _ q => q)
        (fun _ => Except.ok "relatório final")).data_referencia = some "2024-01-01"
    ∧ (App.mainRun (Except.ok ()) true "data/srag_data.db" (Except.error ())
        (Except.ok ()) (fun _ q => q)
        (fun _ => Except.ok "relatório final")).displayedError = none
    ∧ (App.mainRun (Except.ok ()) true "data/srag_data.db" (Except.error ())
        (Except.ok ()) (fun _ q => q)
        (fun _ => Except.ok "relatório final")).final_response
        = some "relatório final" := by
  refine ⟨⟨rfl, rfl, by decide⟩, ⟨rfl, rfl, by decide⟩, by decide, ?_, ?_, ?_, ?_⟩
  · rfl
  · rfl
  · rfl
  · rfl

/-- C1, counterexample to the claim as stated: the Reference Date is not
a single externally supplied anchor from which every relative-time
computation is derived.  In a run where the MAX(data_sintomas) query
fails, the entry point's reference date is its fallback "2024-01-01"
(src/app.py line 39) while the Structured-Query Tool's system prompt —
built from its own, independent re-derivation of the anchor
(src/src/intelligence/tools.py line 111) — anchors "hoje" at the
different fallback "data desconhecida" and does not mention the run's
reference date at all: the capability's "last 30 days" instruction is
not derived from the run's Reference Date value. -/
theorem reference_date_not_single_anchor_counterexample :
    App.get_latest_db_date (Except.error ()) = "2024-01-01"
    ∧ ToolFactory._get_db_max_date (Except.error ()) = "data desconhecida"
    ∧ containsSubstr (ToolFactory.sqlAgentSetup (Except.error ())).promptText
        "data desconhecida" = true
    ∧ containsSubstr (ToolFactory.sqlAgentSetup (Except.error ())).promptText
        "2024-01-01" = false
    ∧ containsSubstr (App.prompt_dinamico (App.get_latest_db_date (Except.error ())))
        "2024-01-01" = true :=
  ⟨rfl, rfl, by decide, by decide, by decide⟩

/-- C1 (amended): both temporal anchors are derived from the database's
maximum symptom-onset date, never from a wall clock — each derivation in
the embedding is a function of the query outcome alone, with no clock
input.  When the MAX(data_sintomas) query returns a non-empty date `d`,
the entry point's reference date and the Structured-Query Tool's anchor
both equal `d`; the seeded task prompt instructs that "hoje" is strictly
`d` and that "últimos 30 dias" are counted backwards from `d`, and the
SQL tool's system prompt instructs the model to compute "últimos 30
dias" as 30 days before `d`.  The tool re-derives the anchor from the
database instead of receiving the run's reference date (the two anchors
diverge only through their distinct fallbacks), and the inclusive
[D-29, D] window itself is delegated to the instructed model rather than
computed by repository code. -/
theorem reference_date_anchor_from_db (d : String) (h : d ≠ "") :
    App.get_latest_db_date (Except.ok (some d)) = d
    ∧ ToolFactory._get_db_max_date (Except.ok (some d)) = d
    ∧ containsSubstr (App.prompt_dinamico d)
        ("Considere que hoje é estritamente " ++ d) = true
    ∧ containsSubstr (App.prompt_dinamico d)
        ("contados a partir de " ++ d ++ " para trás") = true
    ∧ containsSubstr (ToolFactory.sqlSystemPrompt d)
        ("calcule 30 dias antes de " ++ d) = true := by
  refine ⟨by simp [App.get_latest_db_date, h], by simp [ToolFactory._get_db_max_date, h],
    ?_, ?_, ?_⟩
  · unfold App.prompt_dinamico
    simp only [String.append_assoc]
    apply containsSubstr_append_left
    apply containsSubstr_append_left
    apply containsSubstr_append_left
    exact containsSubstr_self_append2 _ _ _
  · unfold App.prompt_dinamico
    simp only [String.append_assoc]
    apply containsSubstr_append_left
    apply containsSubstr_append_left
    apply containsSubstr_append_left
    apply containsSubstr_append_left
    apply containsSubstr_append_left
    apply containsSubstr_append_left
    exact containsSubstr_self_append3 _ _ _ _
  · unfold ToolFactory.sqlSystemPrompt
    simp only [String.append_assoc]
    apply containsSubstr_append_left
    apply containsSubstr_append_left
    apply containsSubstr_append_left
    exact containsSubstr_self_append2 _ _ _

/-- C1 witness: the amended anchor theorem applied at the concrete date
"2024-06-30". -/
theorem reference_date_anchor_from_db_witness :
    ("2024-06-30" : String) ≠ ""
    ∧ App.get_latest_db_date (Except.ok (some "2024-06-30")) = "2024-06-30"
    ∧ ToolFactory._get_db_max_date (Except.ok (some "2024-06-30")) = "2024-06-30" :=
  ⟨by decide,
   (reference_date_anchor_from_db "2024-06-30" (by decide)).1,
   (reference_date_anchor_from_db "2024-06-30" (by decide)).2.1⟩
